import Mathlib

/-!
Verification of the psychrometric core of the Humidity Calculator
(`hum.py`): saturation vapor pressure (Buck 1981), the psychrometric
relation for actual vapor pressure, humidity ratio, specific humidity,
the Newton dew-point solver, and the pressure unit conversions.

The Python floats are modelled by real numbers; `float("nan")` returned
by the dew-point solver for nonpositive vapor pressure is modelled by
`Option.none`.
-/

noncomputable section

namespace Humidity

/-- `MMHG_PER_KPA = 7.50061683` : 1 kPa in mmHg. -/
def MMHG_PER_KPA : ℝ := 7.50061683

/-- `KPA_PER_MMHG = 1.0 / MMHG_PER_KPA`. -/
def KPA_PER_MMHG : ℝ := 1.0 / MMHG_PER_KPA

/-- `saturation_vapor_pressure_kpa`: Buck (1981) equation,
`0.61121 * exp((18.678 - t/234.5) * (t/(257.14 + t)))`. -/
def saturation_vapor_pressure_kpa (t_c : ℝ) : ℝ :=
  0.61121 * Real.exp ((18.678 - (t_c / 234.5)) * (t_c / (257.14 + t_c)))

/-- The exponent of the Buck equation, named for reuse in proofs. -/
def buck_exponent (t : ℝ) : ℝ :=
  (18.678 - (t / 234.5)) * (t / (257.14 + t))

/-- `psychrometric_constant_kpa_per_c`: `A * P` with
`A = 0.00066 * (1 + 0.00115 * t_wb)`. -/
def psychrometric_constant_kpa_per_c (t_wb_c p_kpa : ℝ) : ℝ :=
  (0.00066 * (1 + 0.00115 * t_wb_c)) * p_kpa

/-- `actual_vapor_pressure_kpa`: `e = e_ws(Twb) - gamma * (Tdb - Twb)`,
then `e = max(0, e)`, then `e = min(e, e_s(Tdb))`. -/
def actual_vapor_pressure_kpa (t_db_c t_wb_c p_kpa : ℝ) : ℝ :=
  let e_ws_wb := saturation_vapor_pressure_kpa t_wb_c
  let gamma := psychrometric_constant_kpa_per_c t_wb_c p_kpa
  let e := e_ws_wb - gamma * (t_db_c - t_wb_c)
  min (max 0.0 e) (saturation_vapor_pressure_kpa t_db_c)

/-- `humidity_ratio_kg_per_kg_dry_air`: `0.62198 * e / max(1e-9, P - e)`. -/
def humidity_ratio_kg_per_kg_dry_air (e_kpa p_kpa : ℝ) : ℝ :=
  0.62198 * e_kpa / max 1e-9 (p_kpa - e_kpa)

/-- `specific_humidity_kg_per_kg_moist_air`: `omega / (1 + omega)`. -/
def specific_humidity_kg_per_kg_moist_air (omega : ℝ) : ℝ :=
  omega / (1.0 + omega)

/-- The denominator of the division in the dew-point initial guess:
`ln(e / 0.61121) + 18.678`. -/
def dp_guess_denom (e_kpa : ℝ) : ℝ :=
  Real.log (e_kpa / 0.61121) + 18.678

/-- The closed-form initial guess of the dew-point solver:
`t = (257.14 * 18.678 - 257.14 * ln_ratio) / (ln_ratio + 18.678) - 5.0`. -/
def dp_guess (e_kpa : ℝ) : ℝ :=
  (257.14 * 18.678 - 257.14 * Real.log (e_kpa / 0.61121)) / dp_guess_denom e_kpa - 5.0

/-- The central-difference derivative used in the Newton loop:
`df = (e_s(t + dt) - e_s(t - dt)) / (2 * dt)` with `dt = 0.01`. -/
def dp_df (t : ℝ) : ℝ :=
  (saturation_vapor_pressure_kpa (t + 0.01) - saturation_vapor_pressure_kpa (t - 0.01))
    / (2 * 0.01)

/-- One Newton update: `t - f / df` with `f = e_s(t) - e`. -/
def dp_step (e_kpa t : ℝ) : ℝ :=
  t - (saturation_vapor_pressure_kpa t - e_kpa) / dp_df t

/-- The Newton loop of the dew-point solver: at most `n` updates, breaking
(before updating) when `|df| < 1e-8`. -/
def dp_loop (e_kpa : ℝ) : ℕ → ℝ → ℝ
  | 0, t => t
  | n + 1, t => if |dp_df t| < 1e-8 then t else dp_loop e_kpa n (dp_step e_kpa t)

/-- `dew_point_from_vapor_pressure`: returns the NaN sentinel (modelled as
`none`) for `e ≤ 0`, otherwise runs 8 Newton iterations from the
closed-form guess. -/
def dew_point_from_vapor_pressure (e_kpa : ℝ) : Option ℝ :=
  if e_kpa ≤ 0 then none else some (dp_loop e_kpa 8 (dp_guess e_kpa))

/-- `to_display_pressure` for mmHg: kPa → mmHg conversion used at the
display boundary (`p_kpa * MMHG_PER_KPA`). -/
def kPaToMmHg (p_kpa : ℝ) : ℝ := p_kpa * MMHG_PER_KPA

/-- mmHg → kPa conversion used on input (`p_in * KPA_PER_MMHG`). -/
def mmHgToKPa (p_mmhg : ℝ) : ℝ := p_mmhg * KPA_PER_MMHG

/-! Spec-side model of the dew-point procedure, written from the words of
spec §4.4, to be compared with the source-side `dew_point_from_vapor_pressure`. -/

/-- Written from the spec: initial guess
`T0 = (257.14·18.678 − 257.14·L) / (L + 18.678) − 5.0` with `L = ln(e/0.61121)`. -/
def dewPointSpecGuess (e : ℝ) : ℝ :=
  (257.14 * 18.678 - 257.14 * Real.log (e / 0.61121)) /
    (Real.log (e / 0.61121) + 18.678) - 5.0

/-- Written from the spec: derivative approximation by central difference
with step 0.01 °C, `[e_s(T+0.01) − e_s(T−0.01)] / 0.02`. -/
def dewPointSpecDeriv (T : ℝ) : ℝ :=
  (saturation_vapor_pressure_kpa (T + 0.01) - saturation_vapor_pressure_kpa (T - 0.01)) / 0.02

/-- Written from the spec: up to `n` Newton updates `T ← T − f(T)/f′(T)`,
stopping early (before updating) only when `|f′(T)| < 1e-8`, with no
residual-based exit. -/
def dewPointSpecIter (e : ℝ) : ℕ → ℝ → ℝ
  | 0, T => T
  | n + 1, T =>
    if |dewPointSpecDeriv T| < 1e-8 then T
    else dewPointSpecIter e n (T - (saturation_vapor_pressure_kpa T - e) / dewPointSpecDeriv T)

/-- Written from the spec: the dew-point procedure for `e > 0`, at most 8
update iterations from the closed-form guess. -/
def dewPointSpec (e : ℝ) : ℝ := dewPointSpecIter e 8 (dewPointSpecGuess e)

/-! Helper quantities for the analysis of the Newton iteration. -/

/-- Numerator core of the discrete slope of `buck_exponent`:
`buck_exponent (t+ε) - buck_exponent (t-ε)` has the closed form
`2ε·(buck_h t + ε²/234.5) / ((257.14+t)² - ε²)`. -/
def buck_h (t : ℝ) : ℝ := 18.678 * 257.14 - t * (t + 514.28) / 234.5

/-- The gap `buck_exponent (t + 0.01) - buck_exponent (t - 0.01)`. -/
def buck_dgap (t : ℝ) : ℝ := buck_exponent (t + 0.01) - buck_exponent (t - 0.01)

/-- Rational upper bound for `exp (buck_exponent (-30) - buck_exponent ℓ)`,
valid for `ℓ > -30`. -/
def ebound (ℓ : ℝ) : ℝ := (4 / (4 + (buck_exponent ℓ - buck_exponent (-30))))^4

end Humidity

end

namespace Humidity

/-! ### Basic facts about the Buck equation -/

theorem saturation_eq_exp (t : ℝ) :
    saturation_vapor_pressure_kpa t = 0.61121 * Real.exp (buck_exponent t) := rfl

theorem saturation_pos (t : ℝ) : 0 < saturation_vapor_pressure_kpa t := by
  rw [saturation_eq_exp]
  positivity

/-- Strict monotonicity of the Buck exponent on `[-40, 341]`. -/
theorem buck_exponent_strictMonoOn {t1 t2 : ℝ} (h1 : -40 ≤ t1) (h12 : t1 < t2)
    (h2 : t2 ≤ 341) : buck_exponent t1 < buck_exponent t2 := by
  unfold buck_exponent
  have c1 : (18.678 : ℝ) = 18678 / 1000 := by norm_num
  have c2 : (234.5 : ℝ) = 2345 / 10 := by norm_num
  have c3 : (257.14 : ℝ) = 25714 / 100 := by norm_num
  rw [c1, c2, c3]
  have hd1 : (0 : ℝ) < 25714 / 100 + t1 := by linarith
  have hd2 : (0 : ℝ) < 25714 / 100 + t2 := by linarith
  have key : 0 < (t2 - t1) *
      (18678 / 1000 * (25714 / 100) * (2345 / 10) - 25714 / 100 * (t1 + t2) - t1 * t2) := by
    apply mul_pos (by linarith)
    nlinarith [mul_nonneg (by linarith : (0:ℝ) ≤ 341 - t1) (by linarith : (0:ℝ) ≤ t2 + 40)]
  rw [mul_div_assoc', mul_div_assoc', div_lt_div_iff₀ hd1 hd2]
  linarith [key]

theorem buck_exponent_monoOn {t1 t2 : ℝ} (h1 : -40 ≤ t1) (h12 : t1 ≤ t2)
    (h2 : t2 ≤ 341) : buck_exponent t1 ≤ buck_exponent t2 := by
  rcases eq_or_lt_of_le h12 with h | h
  · rw [h]
  · exact le_of_lt (buck_exponent_strictMonoOn h1 h h2)

theorem saturation_strictMonoOn {t1 t2 : ℝ} (h1 : -40 ≤ t1) (h12 : t1 < t2)
    (h2 : t2 ≤ 341) :
    saturation_vapor_pressure_kpa t1 < saturation_vapor_pressure_kpa t2 := by
  rw [saturation_eq_exp, saturation_eq_exp]
  have := Real.exp_lt_exp.mpr (buck_exponent_strictMonoOn h1 h12 h2)
  nlinarith [Real.exp_pos (buck_exponent t1)]

theorem saturation_monoOn {t1 t2 : ℝ} (h1 : -40 ≤ t1) (h12 : t1 ≤ t2)
    (h2 : t2 ≤ 341) :
    saturation_vapor_pressure_kpa t1 ≤ saturation_vapor_pressure_kpa t2 := by
  rcases eq_or_lt_of_le h12 with h | h
  · rw [h]
  · exact le_of_lt (saturation_strictMonoOn h1 h h2)

/-- Shared helper: the clamp in `actual_vapor_pressure_kpa` keeps the
result in `[0, e_s(Tdb)]`. -/
theorem actual_vapor_pressure_bounds_aux (t_db t_wb p : ℝ) :
    0 ≤ actual_vapor_pressure_kpa t_db t_wb p ∧
    actual_vapor_pressure_kpa t_db t_wb p ≤ saturation_vapor_pressure_kpa t_db := by
  unfold actual_vapor_pressure_kpa
  exact ⟨le_min (le_max_iff.mpr (Or.inl (by norm_num))) (le_of_lt (saturation_pos t_db)),
    min_le_right _ _⟩

/-! ### Claim theorems: clamping, range invariants, monotonicity, units -/

/-- Claim C1: for every input triple, including physically inconsistent
ones with `Twb > Tdb`, `actual_vapor_pressure_kpa` returns a value in
`[0, saturation_vapor_pressure_kpa Tdb]`. -/
theorem actual_vapor_pressure_clamped (t_db t_wb p : ℝ) :
    0 ≤ actual_vapor_pressure_kpa t_db t_wb p ∧
    actual_vapor_pressure_kpa t_db t_wb p ≤ saturation_vapor_pressure_kpa t_db :=
  actual_vapor_pressure_bounds_aux t_db t_wb p

/-- Claim C3: for every `e ≤ 0` (including `e = 0`), the dew-point solver
returns the not-a-number sentinel (modelled as `none`), before any
logarithm or iteration. -/
theorem dew_point_nonpos_sentinel (e : ℝ) (h : e ≤ 0) :
    dew_point_from_vapor_pressure e = none := by
  unfold dew_point_from_vapor_pressure
  exact if_pos h

/-- Witness for C3 at the concrete input `e = 0`. -/
theorem dew_point_nonpos_sentinel_witness :
    (0 : ℝ) ≤ 0 ∧ dew_point_from_vapor_pressure 0 = none :=
  ⟨le_refl 0, dew_point_nonpos_sentinel 0 (le_refl 0)⟩

/-- Claim C6: on `[-40, 50]` the saturation vapor pressure is strictly
positive and strictly increasing. -/
theorem saturation_pos_and_strictMono (t1 t2 : ℝ) (h1 : -40 ≤ t1) (h12 : t1 < t2)
    (h2 : t2 ≤ 50) :
    0 < saturation_vapor_pressure_kpa t1 ∧
    saturation_vapor_pressure_kpa t1 < saturation_vapor_pressure_kpa t2 :=
  ⟨saturation_pos t1, saturation_strictMonoOn h1 h12 (by linarith)⟩

/-- Witness for C6 at `t1 = 0`, `t2 = 1`. -/
theorem saturation_pos_and_strictMono_witness :
    (-40 : ℝ) ≤ 0 ∧ (0 : ℝ) < 1 ∧ (1 : ℝ) ≤ 50 ∧
    (0 < saturation_vapor_pressure_kpa 0 ∧
      saturation_vapor_pressure_kpa 0 < saturation_vapor_pressure_kpa 1) :=
  ⟨by norm_num, by norm_num, by norm_num,
    saturation_pos_and_strictMono 0 1 (by norm_num) (by norm_num) (by norm_num)⟩

/-- Claim C7: the humidity ratio is nonnegative for every `e ≥ 0` and every
pressure, and the specific humidity of every `ω ≥ 0` lies in `[0, 1)`. -/
theorem humidity_range_invariants (e p ω : ℝ) (he : 0 ≤ e) (hω : 0 ≤ ω) :
    0 ≤ humidity_ratio_kg_per_kg_dry_air e p ∧
    0 ≤ specific_humidity_kg_per_kg_moist_air ω ∧
    specific_humidity_kg_per_kg_moist_air ω < 1 := by
  have hden : (0 : ℝ) < max 1e-9 (p - e) := lt_max_of_lt_left (by norm_num)
  have h1ω : (0 : ℝ) < 1.0 + ω := by norm_num; linarith
  refine ⟨?_, ?_, ?_⟩
  · exact div_nonneg (by nlinarith) (le_of_lt hden)
  · exact div_nonneg hω (le_of_lt h1ω)
  · rw [specific_humidity_kg_per_kg_moist_air, div_lt_one h1ω]
    linarith

/-- Witness for C7 at `e = 1`, `p = 101`, `ω = 2`. -/
theorem humidity_range_invariants_witness :
    (0 : ℝ) ≤ 1 ∧ (0 : ℝ) ≤ 2 ∧
    (0 ≤ humidity_ratio_kg_per_kg_dry_air 1 101 ∧
      0 ≤ specific_humidity_kg_per_kg_moist_air 2 ∧
      specific_humidity_kg_per_kg_moist_air 2 < 1) :=
  ⟨by norm_num, by norm_num,
    humidity_range_invariants 1 101 2 (by norm_num) (by norm_num)⟩

/-- Claim C8: for fixed `P`, both the humidity ratio and the composite
specific humidity are (strictly) increasing in `e` on `e ≥ 0`, across the
guard boundary of `max(1e-9, P - e)` as well. -/
theorem humidity_monotone_in_e (e1 e2 p : ℝ) (h0 : 0 ≤ e1) (h12 : e1 < e2) :
    humidity_ratio_kg_per_kg_dry_air e1 p < humidity_ratio_kg_per_kg_dry_air e2 p ∧
    specific_humidity_kg_per_kg_moist_air (humidity_ratio_kg_per_kg_dry_air e1 p) <
      specific_humidity_kg_per_kg_moist_air (humidity_ratio_kg_per_kg_dry_air e2 p) := by
  have hd2 : (0 : ℝ) < max 1e-9 (p - e2) := lt_max_of_lt_left (by norm_num)
  have hd1 : (0 : ℝ) < max 1e-9 (p - e1) := lt_max_of_lt_left (by norm_num)
  have hdle : max 1e-9 (p - e2) ≤ max 1e-9 (p - e1) :=
    max_le_max (le_refl _) (by linarith)
  have hhr : humidity_ratio_kg_per_kg_dry_air e1 p < humidity_ratio_kg_per_kg_dry_air e2 p := by
    unfold humidity_ratio_kg_per_kg_dry_air
    calc 0.62198 * e1 / max 1e-9 (p - e1)
        ≤ 0.62198 * e1 / max 1e-9 (p - e2) :=
          div_le_div_of_nonneg_left (by nlinarith) hd2 hdle
      _ < 0.62198 * e2 / max 1e-9 (p - e2) := by
          rw [div_lt_div_iff₀ hd2 hd2]
          nlinarith [hd2]
  have hnn : 0 ≤ humidity_ratio_kg_per_kg_dry_air e1 p :=
    div_nonneg (by nlinarith) (le_of_lt hd1)
  refine ⟨hhr, ?_⟩
  unfold specific_humidity_kg_per_kg_moist_air
  set x := humidity_ratio_kg_per_kg_dry_air e1 p
  set y := humidity_ratio_kg_per_kg_dry_air e2 p
  have hx : (0 : ℝ) < 1.0 + x := by norm_num; linarith
  have hy : (0 : ℝ) < 1.0 + y := by norm_num; linarith
  rw [div_lt_div_iff₀ hx hy]
  nlinarith

/-- Witness for C8 at `e1 = 1`, `e2 = 2`, `p = 101`. -/
theorem humidity_monotone_in_e_witness :
    (0 : ℝ) ≤ 1 ∧ (1 : ℝ) < 2 ∧
    (humidity_ratio_kg_per_kg_dry_air 1 101 < humidity_ratio_kg_per_kg_dry_air 2 101 ∧
      specific_humidity_kg_per_kg_moist_air (humidity_ratio_kg_per_kg_dry_air 1 101) <
        specific_humidity_kg_per_kg_moist_air (humidity_ratio_kg_per_kg_dry_air 2 101)) :=
  ⟨by norm_num, by norm_num, humidity_monotone_in_e 1 2 101 (by norm_num) (by norm_num)⟩

/-- Claim C9: the division `ω / (1 + ω)` in the specific humidity is a
genuine division, well-defined for every `ω ≠ -1` (the unguarded pole),
and every `ω` reachable from the pipeline (a humidity ratio of a clamped
actual vapor pressure) is nonnegative, so the pole `ω = -1` is never hit. -/
theorem specific_humidity_pole_unreachable :
    (∀ ω : ℝ, ω ≠ -1 →
      specific_humidity_kg_per_kg_moist_air ω * (1.0 + ω) = ω) ∧
    (∀ t_db t_wb p : ℝ,
      0 ≤ humidity_ratio_kg_per_kg_dry_air (actual_vapor_pressure_kpa t_db t_wb p) p ∧
      1.0 + humidity_ratio_kg_per_kg_dry_air (actual_vapor_pressure_kpa t_db t_wb p) p ≠ 0) := by
  constructor
  · intro ω hω
    have h1ω : (1.0 : ℝ) + ω ≠ 0 := by
      intro h
      apply hω
      linarith [h]
    rw [specific_humidity_kg_per_kg_moist_air, div_mul_cancel₀ _ h1ω]
  · intro t_db t_wb p
    have he : 0 ≤ actual_vapor_pressure_kpa t_db t_wb p :=
      (actual_vapor_pressure_bounds_aux t_db t_wb p).1
    have hden : (0 : ℝ) < max 1e-9 (p - actual_vapor_pressure_kpa t_db t_wb p) :=
      lt_max_of_lt_left (by norm_num)
    have hnn : 0 ≤ humidity_ratio_kg_per_kg_dry_air (actual_vapor_pressure_kpa t_db t_wb p) p :=
      div_nonneg (by nlinarith) (le_of_lt hden)
    exact ⟨hnn, by positivity⟩

/-- Witness for C9 at `ω = 0` and the pipeline input `(30, 24, 101.325)`. -/
theorem specific_humidity_pole_unreachable_witness :
    (0 : ℝ) ≠ -1 ∧
    specific_humidity_kg_per_kg_moist_air 0 * (1.0 + 0) = 0 ∧
    (0 ≤ humidity_ratio_kg_per_kg_dry_air (actual_vapor_pressure_kpa 30 24 101.325) 101.325 ∧
      1.0 + humidity_ratio_kg_per_kg_dry_air (actual_vapor_pressure_kpa 30 24 101.325) 101.325 ≠ 0) :=
  ⟨by norm_num, specific_humidity_pole_unreachable.1 0 (by norm_num),
    specific_humidity_pole_unreachable.2 30 24 101.325⟩

/-- Claim C10: over exact arithmetic, converting mmHg → kPa → mmHg is the
identity (in particular for every `x > 0`). -/
theorem pressure_unit_round_trip (x : ℝ) : kPaToMmHg (mmHgToKPa x) = x := by
  unfold kPaToMmHg mmHgToKPa KPA_PER_MMHG MMHG_PER_KPA
  rw [mul_assoc]
  norm_num

/-! ### Claim C2: the dew-point solver follows the specified procedure -/

theorem dp_df_eq_specDeriv (t : ℝ) : dp_df t = dewPointSpecDeriv t := by
  unfold dp_df dewPointSpecDeriv
  norm_num

theorem dp_loop_eq_specIter (e : ℝ) :
    ∀ (n : ℕ) (t : ℝ), dp_loop e n t = dewPointSpecIter e n t := by
  intro n
  induction n with
  | zero => intro t; rfl
  | succ n ih =>
    intro t
    rw [dp_loop, dewPointSpecIter, dp_df_eq_specDeriv]
    split
    · rfl
    · rw [ih, dp_step, dp_df_eq_specDeriv]

/-- Claim C2: for every `e > 0`, the dew-point solver computes exactly the
procedure of spec §4.4: the closed-form initial guess, then at most 8
Newton updates with central-difference derivative (step 0.01, divided by
0.02), with the only early exit being `|f′(T)| < 1e-8` checked before the
update. -/
theorem dew_point_follows_spec_procedure (e : ℝ) (he : 0 < e) :
    dew_point_from_vapor_pressure e = some (dewPointSpec e) := by
  unfold dew_point_from_vapor_pressure dewPointSpec
  rw [if_neg (not_le.mpr he), dp_loop_eq_specIter]
  unfold dp_guess dp_guess_denom dewPointSpecGuess
  rfl

/-- Witness for C2 at `e = 1`. -/
theorem dew_point_follows_spec_procedure_witness :
    (0 : ℝ) < 1 ∧ dew_point_from_vapor_pressure 1 = some (dewPointSpec 1) :=
  ⟨by norm_num, dew_point_follows_spec_procedure 1 (by norm_num)⟩

/-! ### Claim C4: exception freedom and the initial-guess pole -/

/-- Counterexample to C4: at the positive input `e = 0.61121·exp(-18.678)`
the denominator `ln(e/0.61121) + 18.678` of the initial-guess division is
exactly zero, so the dew-point solver does hit a division by zero there. -/
theorem dew_point_guess_denominator_vanishes :
    0 < 0.61121 * Real.exp (-18.678) ∧
    dp_guess_denom (0.61121 * Real.exp (-18.678)) = 0 := by
  constructor
  · positivity
  · unfold dp_guess_denom
    rw [mul_comm, mul_div_assoc, div_self (by norm_num : (0.61121 : ℝ) ≠ 0), mul_one,
      Real.log_exp]
    norm_num

/-- Claim C4 as amended: for every `e > 0` other than the single pole
`e = 0.61121·exp(-18.678)`, the initial-guess denominator is nonzero; the
humidity-ratio denominator is always positive; and the Newton loop never
divides when `|df| < 1e-8` (it returns the current iterate instead). -/
theorem core_total_except_guess_pole (e p : ℝ) (he : 0 < e)
    (hne : e ≠ 0.61121 * Real.exp (-18.678)) :
    dp_guess_denom e ≠ 0 ∧
    (0 : ℝ) < max 1e-9 (p - e) ∧
    (∀ (n : ℕ) (u : ℝ), |dp_df u| < 1e-8 → dp_loop e (n + 1) u = u) := by
  refine ⟨?_, lt_max_of_lt_left (by norm_num), ?_⟩
  · intro h0
    apply hne
    have hlog : Real.log (e / 0.61121) = -18.678 := by
      unfold dp_guess_denom at h0
      linarith
    have hpos : (0 : ℝ) < e / 0.61121 := by positivity
    have := Real.exp_log hpos
    rw [hlog] at this
    have he' : e = 0.61121 * (e / 0.61121) := by
      field_simp
    rw [he', ← this]
  · intro n u h
    rw [dp_loop, if_pos h]

/-- Witness for C4's amended theorem at `e = 1`, `p = 101`. -/
theorem core_total_except_guess_pole_witness :
    ((0 : ℝ) < 1 ∧ (1 : ℝ) ≠ 0.61121 * Real.exp (-18.678)) ∧
    (dp_guess_denom 1 ≠ 0 ∧
      (0 : ℝ) < max 1e-9 (101 - 1) ∧
      (∀ (n : ℕ) (u : ℝ), |dp_df u| < 1e-8 → dp_loop 1 (n + 1) u = u)) := by
  have hexp : Real.exp (-18.678) < 1 := Real.exp_lt_one_iff.mpr (by norm_num)
  have hne : (1 : ℝ) ≠ 0.61121 * Real.exp (-18.678) := by
    have : 0.61121 * Real.exp (-18.678) < 1 := by
      nlinarith [Real.exp_pos (-18.678)]
    exact ne_of_gt this
  exact ⟨⟨by norm_num, hne⟩, core_total_except_guess_pole 1 101 (by norm_num) hne⟩

/-! ### Claim C5: analysis of the Newton iteration started from the
closed-form guess, at the input `e = e_s(-30)`.

The discrete slope `buck_dgap t = g(t+0.01) - g(t-0.01)` of the Buck
exponent `g` has an explicit rational closed form; it is positive and
antitone on `[0, 340]`.  Together with the elementary bounds
`1 + x ≤ exp x`, `exp (-x) ≤ 1/(1+x)` and `exp (-x) ≤ (4/(4+x))⁴`, each
Newton step at a point `t ∈ [ℓ, u]` can be bracketed by rational
functions of `ℓ` and `u` alone, so the eight iterates can be tracked in
explicit rational intervals. -/

theorem buck_dgap_closed_form (t : ℝ) (h : -40 ≤ t) :
    buck_dgap t = 0.02 * (buck_h t + 0.0001 / 234.5) / ((257.14 + t)^2 - 0.0001) := by
  unfold buck_dgap buck_exponent buck_h
  have h1 : (257.14 : ℝ) + (t + 0.01) ≠ 0 := by intro h0; nlinarith
  have h2 : (257.14 : ℝ) + (t - 0.01) ≠ 0 := by intro h0; nlinarith
  have h3 : ((257.14 : ℝ) + t)^2 - 0.0001 ≠ 0 := by
    intro h0
    nlinarith [sq_nonneg (257.14 + t), sq_nonneg (217.14 + t)]
  field_simp
  ring

theorem buck_h_anti {x y : ℝ} (hx : 0 ≤ x) (hxy : x ≤ y) : buck_h y ≤ buck_h x := by
  have hkey : buck_h x - buck_h y = (y * (y + 514.28) - x * (x + 514.28)) / 234.5 := by
    unfold buck_h
    ring
  have hnum : 0 ≤ y * (y + 514.28) - x * (x + 514.28) := by nlinarith
  have : 0 ≤ buck_h x - buck_h y := by
    rw [hkey]
    positivity
  linarith

theorem buck_h_lb {t : ℝ} (h : t ≤ 341) (h0 : 0 ≤ t) : 3559 ≤ buck_h t := by
  have h341 : (3559 : ℝ) ≤ buck_h 341 := by
    unfold buck_h
    norm_num
  linarith [buck_h_anti h0 h]

theorem buck_dgap_pos {t : ℝ} (h0 : 0 ≤ t) (h1 : t ≤ 340) : 0 < buck_dgap t := by
  unfold buck_dgap
  have := buck_exponent_strictMonoOn
    (show (-40 : ℝ) ≤ t - 0.01 by linarith)
    (show t - 0.01 < t + 0.01 by linarith)
    (show t + 0.01 ≤ 341 by linarith)
  linarith

theorem buck_dgap_anti {x y : ℝ} (hx : 0 ≤ x) (hxy : x ≤ y) (hy : y ≤ 340) :
    buck_dgap y ≤ buck_dgap x := by
  rw [buck_dgap_closed_form x (by linarith), buck_dgap_closed_form y (by linarith)]
  have hby : (3559 : ℝ) ≤ buck_h y := buck_h_lb (by linarith) (by linarith)
  have hhxy : buck_h y ≤ buck_h x := buck_h_anti hx hxy
  have hdx : (0 : ℝ) < (257.14 + x)^2 - 0.0001 := by nlinarith
  have hdxy : (257.14 + x)^2 - 0.0001 ≤ (257.14 + y)^2 - 0.0001 := by nlinarith
  apply div_le_div₀ (by nlinarith) (by nlinarith) hdx hdxy

theorem buck_dgap_lt_one {t : ℝ} (h0 : 0 ≤ t) (h1 : t ≤ 340) : buck_dgap t < 1 := by
  have h00 : buck_dgap 0 < 1 := by
    unfold buck_dgap buck_exponent
    norm_num
  linarith [buck_dgap_anti (le_refl (0:ℝ)) h0 h1]

theorem exp_neg_le_inv_one_add {x : ℝ} (hx : 0 < x) : Real.exp (-x) ≤ 1 / (1 + x) := by
  have h1 : 1 + x ≤ Real.exp x := by linarith [Real.add_one_le_exp x]
  have h2 : (0 : ℝ) < 1 + x := by linarith
  rw [Real.exp_neg, inv_eq_one_div]
  exact one_div_le_one_div_of_le h2 h1

theorem exp_le_inv_one_sub {a : ℝ} (ha : a < 1) : Real.exp a ≤ 1 / (1 - a) := by
  have h1 : 1 - a ≤ Real.exp (-a) := by
    have := Real.add_one_le_exp (-a)
    linarith
  have h2 : (0 : ℝ) < 1 - a := by linarith
  have h3 : Real.exp a * (1 - a) ≤ Real.exp a * Real.exp (-a) :=
    mul_le_mul_of_nonneg_left h1 (le_of_lt (Real.exp_pos a))
  rw [← Real.exp_add] at h3
  simp only [add_neg_cancel, Real.exp_zero] at h3
  rw [le_div_iff₀ h2]
  exact h3

theorem exp_neg_le_quartic {x : ℝ} (hx : 0 < x) : Real.exp (-x) ≤ (4 / (4 + x))^4 := by
  have hq : Real.exp (-(x / 4)) ≤ 4 / (4 + x) := by
    have h := exp_neg_le_inv_one_add (show (0:ℝ) < x / 4 by linarith)
    have h2 : (1 : ℝ) / (1 + x / 4) = 4 / (4 + x) := by
      rw [div_eq_div_iff (by linarith) (by linarith)]
      ring
    rw [h2] at h
    exact h
  have hrw : Real.exp (-x) = (Real.exp (-(x / 4)))^4 := by
    rw [← Real.exp_nat_mul]
    ring_nf
  rw [hrw]
  exact pow_le_pow_left₀ (le_of_lt (Real.exp_pos _)) hq 4

/-- Two-sided bracket for `exp a - exp (-b)` by rational functions of
`a + b`, for small positive `a`, `b`. -/
theorem exp_diff_bracket {a b : ℝ} (ha : 0 < a) (hb : 0 < b) (hs : a + b < 1) :
    (1 - (a + b)) * (a + b) ≤ Real.exp a - Real.exp (-b) ∧
    Real.exp a - Real.exp (-b) ≤ (a + b) / (1 - (a + b)) := by
  have hs0 : (0 : ℝ) < a + b := by linarith
  have h1s : (0 : ℝ) < 1 - (a + b) := by linarith
  constructor
  · have harg : -b + (a + b) = a := by ring
    have hid : Real.exp a - Real.exp (-b) = Real.exp (-b) * (Real.exp (a + b) - 1) := by
      rw [mul_sub, ← Real.exp_add, harg, mul_one]
    have h1 : 1 - (a + b) ≤ Real.exp (-b) := by
      have := Real.add_one_le_exp (-b)
      linarith
    have h2 : a + b ≤ Real.exp (a + b) - 1 := by
      have := Real.add_one_le_exp (a + b)
      linarith
    rw [hid]
    exact mul_le_mul h1 h2 (le_of_lt hs0) (le_of_lt (Real.exp_pos _))
  · have harg : a + -(a + b) = -b := by ring
    have hid : Real.exp a - Real.exp (-b) = Real.exp a * (1 - Real.exp (-(a + b))) := by
      rw [mul_sub, mul_one, ← Real.exp_add, harg]
    have h1 : Real.exp a ≤ 1 / (1 - a) := exp_le_inv_one_sub (by linarith)
    have h2 : 1 - Real.exp (-(a + b)) ≤ a + b := by
      have := Real.add_one_le_exp (-(a + b))
      linarith
    have h3 : (0 : ℝ) ≤ 1 - Real.exp (-(a + b)) := by
      have : Real.exp (-(a + b)) < 1 := Real.exp_lt_one_iff.mpr (by linarith)
      linarith
    have h4 : Real.exp a * (1 - Real.exp (-(a + b))) ≤ 1 / (1 - a) * (a + b) :=
      mul_le_mul h1 h2 h3 (div_nonneg (by norm_num) (by linarith))
    have h5 : 1 / (1 - a) * (a + b) ≤ (a + b) / (1 - (a + b)) := by
      rw [div_mul_eq_mul_div, one_mul]
      exact div_le_div_of_nonneg_left (le_of_lt hs0) h1s (by linarith)
    rw [hid]
    linarith

set_option maxHeartbeats 1000000 in
/-- Per-step bracket for the Newton iteration at `e = e_s(-30)`: if the
current iterate `t` lies in `[ℓ, u] ⊆ [0, 340]`, then the derivative is
bounded below and the next iterate moves down by an amount bracketed by
rational functions of `ℓ` and `u`. -/
theorem newton_step_bracket (ℓ u t : ℝ) (hℓ0 : 0 ≤ ℓ) (hℓt : ℓ ≤ t) (htu : t ≤ u)
    (hu : u ≤ 340) :
    61121 / 2000 * ((1 - buck_dgap ℓ) * buck_dgap u) ≤ dp_df t ∧
    t - (1 / 50) / ((1 - buck_dgap ℓ) * buck_dgap u) ≤
      dp_step (saturation_vapor_pressure_kpa (-30)) t ∧
    dp_step (saturation_vapor_pressure_kpa (-30)) t ≤
      t - 1 / 50 * ((1 - ebound ℓ) * (1 - buck_dgap ℓ)) / buck_dgap ℓ := by
  have ht0 : (0 : ℝ) ≤ t := le_trans hℓ0 hℓt
  have htu340 : t ≤ 340 := le_trans htu hu
  set A := buck_exponent (t + 0.01) - buck_exponent t with hA_def
  set B := buck_exponent t - buck_exponent (t - 0.01) with hB_def
  have hA : 0 < A :=
    sub_pos.mpr (buck_exponent_strictMonoOn (by linarith) (by linarith) (by linarith))
  have hB : 0 < B :=
    sub_pos.mpr (buck_exponent_strictMonoOn (by linarith) (by linarith) (by linarith))
  have habt : A + B = buck_dgap t := by
    rw [hA_def, hB_def]
    unfold buck_dgap
    ring
  have hsu : buck_dgap u ≤ buck_dgap t := buck_dgap_anti ht0 htu hu
  have hsl : buck_dgap t ≤ buck_dgap ℓ := buck_dgap_anti hℓ0 hℓt htu340
  have hl1 : buck_dgap ℓ < 1 := buck_dgap_lt_one hℓ0 (by linarith)
  have hu_pos : 0 < buck_dgap u := buck_dgap_pos (by linarith) hu
  have hl_pos : 0 < buck_dgap ℓ := buck_dgap_pos hℓ0 (by linarith)
  have hst1 : buck_dgap t < 1 := lt_of_le_of_lt hsl hl1
  obtain ⟨hDlb, hDub⟩ := exp_diff_bracket hA hB (by rw [habt]; exact hst1)
  rw [habt] at hDlb hDub
  have hD_lb2 : (1 - buck_dgap ℓ) * buck_dgap u ≤ Real.exp A - Real.exp (-B) := by
    have : (1 - buck_dgap ℓ) * buck_dgap u ≤ (1 - buck_dgap t) * buck_dgap t :=
      mul_le_mul (by linarith) hsu (le_of_lt hu_pos) (by linarith)
    linarith
  have hD_ub2 : Real.exp A - Real.exp (-B) ≤ buck_dgap ℓ / (1 - buck_dgap ℓ) := by
    have : buck_dgap t / (1 - buck_dgap t) ≤ buck_dgap ℓ / (1 - buck_dgap ℓ) := by
      rw [div_le_div_iff₀ (by linarith) (by linarith)]
      nlinarith
    linarith
  have hD_pos : 0 < Real.exp A - Real.exp (-B) :=
    lt_of_lt_of_le (mul_pos (by linarith) hu_pos) hD_lb2
  -- the Buck exponent at t is nonnegative
  have hgt0 : 0 ≤ buck_exponent t := by
    have h00 : buck_exponent 0 = 0 := by
      unfold buck_exponent
      norm_num
    have := buck_exponent_monoOn (show (-40 : ℝ) ≤ 0 by norm_num) ht0 (by linarith)
    linarith
  have hexp1 : 1 ≤ Real.exp (buck_exponent t) := by
    have := Real.exp_le_exp.mpr hgt0
    rwa [Real.exp_zero] at this
  have hexp_ne : Real.exp (buck_exponent t) ≠ 0 := ne_of_gt (Real.exp_pos _)
  -- closed forms for the derivative and the Newton ratio
  have hdf_eq : dp_df t = 61121 / 2000 *
      (Real.exp (buck_exponent t) * (Real.exp A - Real.exp (-B))) := by
    rw [hA_def, hB_def]
    unfold dp_df
    rw [saturation_eq_exp, saturation_eq_exp, Real.exp_sub, neg_sub, Real.exp_sub]
    field_simp
    ring
  have hf_eq : saturation_vapor_pressure_kpa t - saturation_vapor_pressure_kpa (-30) =
      61121 / 100000 * (Real.exp (buck_exponent t) *
        (1 - Real.exp (buck_exponent (-30) - buck_exponent t))) := by
    rw [saturation_eq_exp, saturation_eq_exp, Real.exp_sub]
    field_simp
    ring
  have hD_ne : Real.exp A - Real.exp (-B) ≠ 0 := ne_of_gt hD_pos
  have hratio_eq : (saturation_vapor_pressure_kpa t - saturation_vapor_pressure_kpa (-30))
      / dp_df t = 1 / 50 * (1 - Real.exp (buck_exponent (-30) - buck_exponent t))
        / (Real.exp A - Real.exp (-B)) := by
    rw [hf_eq, hdf_eq]
    rw [div_eq_div_iff (mul_ne_zero (by norm_num) (mul_ne_zero hexp_ne hD_ne)) hD_ne]
    ring
  -- bounds on the numerator 1 - exp(L0 - g t)
  have hL0neg : buck_exponent (-30) < 0 := by
    unfold buck_exponent
    norm_num
  have hgl0 : 0 ≤ buck_exponent ℓ := by
    have h00 : buck_exponent 0 = 0 := by
      unfold buck_exponent
      norm_num
    have := buck_exponent_monoOn (show (-40 : ℝ) ≤ 0 by norm_num) hℓ0 (by linarith)
    linarith
  have hglt : buck_exponent ℓ ≤ buck_exponent t :=
    buck_exponent_monoOn (by linarith) hℓt (by linarith)
  have hx_pos : 0 < buck_exponent ℓ - buck_exponent (-30) := by linarith
  have hEub : Real.exp (buck_exponent (-30) - buck_exponent t) ≤ ebound ℓ := by
    have h1 : Real.exp (buck_exponent (-30) - buck_exponent t) ≤
        Real.exp (buck_exponent (-30) - buck_exponent ℓ) :=
      Real.exp_le_exp.mpr (by linarith)
    have h2 : Real.exp (buck_exponent (-30) - buck_exponent ℓ) ≤ ebound ℓ := by
      have harg : buck_exponent (-30) - buck_exponent ℓ =
          -(buck_exponent ℓ - buck_exponent (-30)) := by ring
      rw [harg]
      exact exp_neg_le_quartic hx_pos
    linarith
  have hE1 : ebound ℓ ≤ 1 := by
    unfold ebound
    have h4 : (4 : ℝ) / (4 + (buck_exponent ℓ - buck_exponent (-30))) ≤ 1 := by
      rw [div_le_one (by linarith)]
      linarith
    exact pow_le_one₀ (by positivity) h4
  have hN1 : 1 - Real.exp (buck_exponent (-30) - buck_exponent t) ≤ 1 := by
    linarith [Real.exp_pos (buck_exponent (-30) - buck_exponent t)]
  have hNlb : 1 - ebound ℓ ≤ 1 - Real.exp (buck_exponent (-30) - buck_exponent t) := by
    linarith
  have hN0 : 0 ≤ 1 - Real.exp (buck_exponent (-30) - buck_exponent t) := by linarith
  refine ⟨?_, ?_, ?_⟩
  · -- derivative lower bound
    rw [hdf_eq]
    have hkey : (1 - buck_dgap ℓ) * buck_dgap u ≤
        Real.exp (buck_exponent t) * (Real.exp A - Real.exp (-B)) := by
      nlinarith [mul_nonneg (by linarith : (0:ℝ) ≤ Real.exp (buck_exponent t) - 1)
        (le_of_lt hD_pos)]
    exact mul_le_mul_of_nonneg_left hkey (by norm_num)
  · -- step upper bound on the decrease
    unfold dp_step
    have hub : (saturation_vapor_pressure_kpa t - saturation_vapor_pressure_kpa (-30))
        / dp_df t ≤ (1 / 50) / ((1 - buck_dgap ℓ) * buck_dgap u) := by
      rw [hratio_eq]
      apply div_le_div₀ (by norm_num) ?_ (mul_pos (by linarith) hu_pos) hD_lb2
      linarith
    linarith
  · -- step lower bound on the decrease
    unfold dp_step
    have hid : 1 / 50 * ((1 - ebound ℓ) * (1 - buck_dgap ℓ)) / buck_dgap ℓ =
        1 / 50 * (1 - ebound ℓ) / (buck_dgap ℓ / (1 - buck_dgap ℓ)) := by
      rw [div_div_eq_mul_div]
      ring
    have hlb : 1 / 50 * ((1 - ebound ℓ) * (1 - buck_dgap ℓ)) / buck_dgap ℓ ≤
        (saturation_vapor_pressure_kpa t - saturation_vapor_pressure_kpa (-30)) / dp_df t := by
      rw [hratio_eq, hid]
      apply div_le_div₀ ?_ ?_ hD_pos hD_ub2
      · linarith
      · linarith
    linarith

theorem dp_loop_step_eq (e t : ℝ) (m n : ℕ) (hmn : m = n + 1)
    (h : ¬ |dp_df t| < 1e-8) :
    dp_loop e m t = dp_loop e n (dp_step e t) := by
  subst hmn
  rw [dp_loop, if_neg h]

/-- One tracked iteration: from an interval `[ℓ, u]` for the current
iterate, rational side conditions produce an interval `[ℓ', u']` for the
next iterate, and the early-exit test fails. -/
theorem newton_iter_advance (ℓ u ℓ' u' t : ℝ) (hℓ0 : 0 ≤ ℓ) (hℓt : ℓ ≤ t)
    (htu : t ≤ u) (hu : u ≤ 340)
    (hdf8 : (1e-8 : ℝ) < 61121 / 2000 * ((1 - buck_dgap ℓ) * buck_dgap u))
    (hS : ℓ' ≤ ℓ - 1 / 50 / ((1 - buck_dgap ℓ) * buck_dgap u))
    (hs : u - 1 / 50 * ((1 - ebound ℓ) * (1 - buck_dgap ℓ)) / buck_dgap ℓ ≤ u') :
    ¬ |dp_df t| < 1e-8 ∧
    ℓ' ≤ dp_step (saturation_vapor_pressure_kpa (-30)) t ∧
    dp_step (saturation_vapor_pressure_kpa (-30)) t ≤ u' := by
  obtain ⟨h1, h2, h3⟩ := newton_step_bracket ℓ u t hℓ0 hℓt htu hu
  have hdf_pos : (1e-8 : ℝ) < dp_df t := lt_of_lt_of_le hdf8 h1
  refine ⟨?_, by linarith, by linarith⟩
  rw [abs_of_pos (lt_trans (by norm_num) hdf_pos)]
  exact not_lt.mpr (le_of_lt hdf_pos)

set_option maxHeartbeats 2000000 in
/-- Claim C5 fails on the code: at `e = e_s(-30)` the dew-point solver
returns a value that is at least `5` °C (the true dew point is `-30` °C),
so the round trip misses by more than `0.01` °C — in fact by more than
35 °C.  The closed-form initial guess lies near `331` °C and eight Newton
steps cannot come back. -/
theorem dew_point_round_trip_fails_at_minus30 :
    ∃ t : ℝ, dew_point_from_vapor_pressure (saturation_vapor_pressure_kpa (-30)) = some t ∧
      5 ≤ t ∧ ¬ |t - (-30)| ≤ 0.01 := by
  have he0 : 0 < saturation_vapor_pressure_kpa (-30) := saturation_pos (-30)
  have hL : Real.log (saturation_vapor_pressure_kpa (-30) / 0.61121) = buck_exponent (-30) := by
    rw [saturation_eq_exp, mul_comm, mul_div_assoc,
      div_self (by norm_num : (0.61121 : ℝ) ≠ 0), mul_one, Real.log_exp]
  have ht0eq : dp_guess (saturation_vapor_pressure_kpa (-30)) =
      (257.14 * 18.678 - 257.14 * buck_exponent (-30)) /
        (buck_exponent (-30) + 18.678) - 5.0 := by
    unfold dp_guess dp_guess_denom
    rw [hL]
  have ht0l : (331.01 : ℝ) ≤ dp_guess (saturation_vapor_pressure_kpa (-30)) := by
    rw [ht0eq]
    unfold buck_exponent
    norm_num
  have ht0u : dp_guess (saturation_vapor_pressure_kpa (-30)) ≤ 331.02 := by
    rw [ht0eq]
    unfold buck_exponent
    norm_num
  obtain ⟨hn1, hl1, hu1⟩ :=
    newton_iter_advance 331.01 331.02 235.14 235.58 _ (by norm_num) ht0l ht0u (by norm_num)
      (by norm_num [buck_dgap, buck_exponent])
      (by norm_num [buck_dgap, buck_exponent])
      (by norm_num [buck_dgap, buck_exponent, ebound])
  have he1 := dp_loop_step_eq (saturation_vapor_pressure_kpa (-30)) _ 8 7 rfl hn1
  obtain ⟨hn2, hl2, hu2⟩ :=
    newton_iter_advance 235.14 235.58 175.15 176.11 _ (by norm_num) hl1 hu1 (by norm_num)
      (by norm_num [buck_dgap, buck_exponent])
      (by norm_num [buck_dgap, buck_exponent])
      (by norm_num [buck_dgap, buck_exponent, ebound])
  have he2 := dp_loop_step_eq (saturation_vapor_pressure_kpa (-30)) _ 7 6 rfl hn2
  obtain ⟨hn3, hl3, hu3⟩ :=
    newton_iter_advance 175.15 176.11 131.3 132.88 _ (by norm_num) hl2 hu2 (by norm_num)
      (by norm_num [buck_dgap, buck_exponent])
      (by norm_num [buck_dgap, buck_exponent])
      (by norm_num [buck_dgap, buck_exponent, ebound])
  have he3 := dp_loop_step_eq (saturation_vapor_pressure_kpa (-30)) _ 6 5 rfl hn3
  obtain ⟨hn4, hl4, hu4⟩ :=
    newton_iter_advance 131.3 132.88 96.97 99.29 _ (by norm_num) hl3 hu3 (by norm_num)
      (by norm_num [buck_dgap, buck_exponent])
      (by norm_num [buck_dgap, buck_exponent])
      (by norm_num [buck_dgap, buck_exponent, ebound])
  have he4 := dp_loop_step_eq (saturation_vapor_pressure_kpa (-30)) _ 5 4 rfl hn4
  obtain ⟨hn5, hl5, hu5⟩ :=
    newton_iter_advance 96.97 99.29 68.97 72.17 _ (by norm_num) hl4 hu4 (by norm_num)
      (by norm_num [buck_dgap, buck_exponent])
      (by norm_num [buck_dgap, buck_exponent])
      (by norm_num [buck_dgap, buck_exponent, ebound])
  have he5 := dp_loop_step_eq (saturation_vapor_pressure_kpa (-30)) _ 4 3 rfl hn5
  obtain ⟨hn6, hl6, hu6⟩ :=
    newton_iter_advance 68.97 72.17 45.47 49.75 _ (by norm_num) hl5 hu5 (by norm_num)
      (by norm_num [buck_dgap, buck_exponent])
      (by norm_num [buck_dgap, buck_exponent])
      (by norm_num [buck_dgap, buck_exponent, ebound])
  have he6 := dp_loop_step_eq (saturation_vapor_pressure_kpa (-30)) _ 3 2 rfl hn6
  obtain ⟨hn7, hl7, hu7⟩ :=
    newton_iter_advance 45.47 49.75 25.32 30.96 _ (by norm_num) hl6 hu6 (by norm_num)
      (by norm_num [buck_dgap, buck_exponent])
      (by norm_num [buck_dgap, buck_exponent])
      (by norm_num [buck_dgap, buck_exponent, ebound])
  have he7 := dp_loop_step_eq (saturation_vapor_pressure_kpa (-30)) _ 2 1 rfl hn7
  obtain ⟨hn8, hl8, hu8⟩ :=
    newton_iter_advance 25.32 30.96 7.74 15.15 _ (by norm_num) hl7 hu7 (by norm_num)
      (by norm_num [buck_dgap, buck_exponent])
      (by norm_num [buck_dgap, buck_exponent])
      (by norm_num [buck_dgap, buck_exponent, ebound])
  have he8 := dp_loop_step_eq (saturation_vapor_pressure_kpa (-30)) _ 1 0 rfl hn8
  refine ⟨dp_loop (saturation_vapor_pressure_kpa (-30)) 8
      (dp_guess (saturation_vapor_pressure_kpa (-30))), ?_, ?_, ?_⟩
  · unfold dew_point_from_vapor_pressure
    rw [if_neg (not_le.mpr he0)]
  · rw [he1, he2, he3, he4, he5, he6, he7, he8]
    simp only [dp_loop]
    linarith [hl8]
  · rw [he1, he2, he3, he4, he5, he6, he7, he8]
    simp only [dp_loop]
    intro habs
    have h2 := (abs_le.mp habs).2
    linarith [hl8]

end Humidity
